import Mathlib

/-!
# Verification of the HyperSpy `RectangleWidget` geometry core

Shallow embedding of `hyperspy/drawing/_widgets/rectangles.py`
(`RectangleWidget`): bounds parsing, bounds setters, geometry
validation, keyboard size stepping, and the corner-drag resize state
machine of `_onmousemove`.  All value-space arithmetic in the source is
plain addition, subtraction, `min`/`max` and comparisons, so it is
embedded over `ℚ`.

Members of the base classes (`Widget`, `Widget2DBase`, `ResizersMixin`)
that the rectangle code calls but whose source is not part of this
development (`_apply_changes`, `_do_snap_position`, `_do_snap_size`,
`_get_resizer_offset`) are modelled from the specification and marked
as such in their doc comments.
-/

/-- Change notifications fired by the widget after a mutation. -/
inductive Event where
  | positionChanged : Event
  | sizeChanged : Event
deriving DecidableEq, Repr

/-- The axis contract consumed by the widget (`DataAxis`): value range,
step scale, number of points, and the current navigation cursor value.
`low_value`, `high_value`, `scale` and `size` are the attributes the
rectangle code reads; `value` is the navigation cursor used by
`_set_a_size`. -/
structure Axis where
  low_value : ℚ
  high_value : ℚ
  scale : ℚ
  size : ℕ
  value : ℚ
deriving DecidableEq, Repr

/-- The widget state: `_pos` and `_size` (componentwise), the two axes,
and the configuration/drag attributes read by the rectangle code
(`_navigating`, `size_step`, `snap_position`, `snap_size`, `picked`,
`resizer_picked`, `pick_offset`).  `resizer_picked` is `none` when the
main patch is dragged (`False` in the source) and `some c` when resize
handle `c` is picked. -/
structure Widget where
  pos0 : ℚ
  pos1 : ℚ
  size0 : ℚ
  size1 : ℚ
  ax0 : Axis
  ax1 : Axis
  navigating : Bool
  size_step : ℚ
  snap_position : Bool
  snap_size : Bool
  picked : Bool
  resizer_picked : Option ℕ
  pick_offset0 : ℚ
  pick_offset1 : ℚ
deriving DecidableEq, Repr

namespace Widget

/-- The source's `self.axes[idx]`. -/
def axI (s : Widget) (idx : Fin 2) : Axis :=
  if idx = 0 then s.ax0 else s.ax1

/-- The source's `self._pos[idx]`. -/
def posI (s : Widget) (idx : Fin 2) : ℚ :=
  if idx = 0 then s.pos0 else s.pos1

/-- The source's `self._size[idx]`. -/
def sizeI (s : Widget) (idx : Fin 2) : ℚ :=
  if idx = 0 then s.size0 else s.size1

/-- Assignment `self._pos[idx] = v`. -/
def setPosI (s : Widget) (idx : Fin 2) (v : ℚ) : Widget :=
  if idx = 0 then { s with pos0 := v } else { s with pos1 := v }

/-- Assignment `self._size[idx] = v`. -/
def setSizeI (s : Widget) (idx : Fin 2) (v : ℚ) : Widget :=
  if idx = 0 then { s with size0 := v } else { s with size1 := v }

end Widget

/-- Rounding to the nearest integer (half rounds up), used by the
spec-modelled snapping. -/
def roundQ (q : ℚ) : ℤ := ⌊q + 1 / 2⌋

/-- Round `v` to the nearest multiple of `step`. -/
def snapToStep (v step : ℚ) : ℚ := (roundQ (v / step) : ℚ) * step

/-- Modelled from the spec: the base widget's `_do_snap_position`
(not part of this source file).  Per the spec's GeometryValidator step
4, it rounds each position component to the nearest multiple of the
configured position-snap step, whose default is the axis scale. -/
def do_snap_position (s : Widget) : Widget :=
  { s with pos0 := snapToStep s.pos0 s.ax0.scale,
           pos1 := snapToStep s.pos1 s.ax1.scale }

/-- Modelled from the spec: the base widget's `_do_snap_size`
(not part of this source file).  Per the spec's GeometryValidator step
4, it rounds each size component to the nearest multiple of the
configured size-snap step, whose default is the axis scale. -/
def do_snap_size (s : Widget) : Widget :=
  { s with size0 := snapToStep s.size0 s.ax0.scale,
           size1 := snapToStep s.size1 s.ax1.scale }

/-- The source's clamp idiom
`if v < lo: v = lo elif v > hi: v = hi`. -/
def clampChain (v lo hi : ℚ) : ℚ :=
  if v < lo then lo else if v > hi then hi else v

/-- The snap-free part of `RectangleWidget._validate_geometry`
(lines 289-322): clamp each size component to the axis extent
`axis.size * axis.scale`; clamp a *supplied* position candidate to
`[low_value, high_value]` (an unsupplied candidate, `none`, stands for
the Python default `None` and uses the stored position unclamped); then
if the far edge `pos + size` exceeds `high_value + scale`, pull the far
edge back to that ceiling and recompute `pos = edge - size`. -/
def validate_core (s : Widget) (x1c y1c : Option ℚ) : Widget :=
  let sz0 := min s.size0 ((s.ax0.size : ℚ) * s.ax0.scale)
  let sz1 := min s.size1 ((s.ax1.size : ℚ) * s.ax1.scale)
  let x1 := match x1c with
    | none => s.pos0
    | some v => clampChain v s.ax0.low_value s.ax0.high_value
  let y1 := match y1c with
    | none => s.pos1
    | some v => clampChain v s.ax1.low_value s.ax1.high_value
  let x1 := if x1 + sz0 > s.ax0.high_value + s.ax0.scale
            then s.ax0.high_value + s.ax0.scale - sz0 else x1
  let y1 := if y1 + sz1 > s.ax1.high_value + s.ax1.scale
            then s.ax1.high_value + s.ax1.scale - sz1 else y1
  { s with size0 := sz0, size1 := sz1, pos0 := x1, pos1 := y1 }

/-- Full `RectangleWidget._validate_geometry`: the snap-free core followed by
the two optional snap passes (`snap_position` first, then `snap_size`),
exactly as in lines 322-327 of the source. -/
def validate_geometry (s : Widget) (x1c y1c : Option ℚ) : Widget :=
  let s1 := validate_core s x1c y1c
  let s2 := if s1.snap_position then do_snap_position s1 else s1
  if s2.snap_size then do_snap_size s2 else s2

/-- Modelled from the spec: the base widget's `_apply_changes`
(ChangeNotifier, not part of this source file).  Compares the committed
geometry against the recorded old geometry and fires a position-changed
event iff the position differs and a size-changed event iff the size
differs. -/
def apply_changes (s : Widget) (old_pos old_size : ℚ × ℚ) : List Event :=
  (if (s.pos0, s.pos1) ≠ old_pos then [Event.positionChanged] else []) ++
  (if (s.size0, s.size1) ≠ old_size then [Event.sizeChanged] else [])

/-- Method `RectangleWidget.set_bounds` called with the four positional values
`(x, y, w, h)` (which `_parse_bounds_args` returns unchanged).  Runs the
four sequential range checks; on the first failure it raises `ValueError`
with that field's message, leaving the state untouched and firing no
event (`(s, [], some msg)`); on success it commits the new position and
size directly and runs the change notifier (`(s', events, none)`). -/
def set_bounds (s : Widget) (x y w h : ℚ) : Widget × List Event × Option String :=
  if ¬ (s.ax0.low_value ≤ x ∧ x ≤ s.ax0.high_value) then
    (s, [], some "`left` value is not in range.")
  else if ¬ (s.ax1.low_value ≤ y ∧ y ≤ s.ax1.high_value) then
    (s, [], some "`top` value is not in range.")
  else if ¬ (s.ax0.low_value ≤ x + w ∧ x + w ≤ s.ax0.high_value + s.ax0.scale) then
    (s, [], some "`width` or `right` value is not in range.")
  else if ¬ (s.ax1.low_value ≤ y + h ∧ y + h ≤ s.ax1.high_value + s.ax1.scale) then
    (s, [], some "`height` or `bottom` value is not in range.")
  else
    let s' := { s with pos0 := x, pos1 := y, size0 := w, size1 := h }
    (s', apply_changes s' (s.pos0, s.pos1) (s.size0, s.size1), none)

/-- Method `RectangleWidget._set_size` (vector size setter): clamp the request
to at most the axis extent and at least one scale unit componentwise;
if anything differs from the stored size, commit, re-validate the
geometry, and fire a size-changed event iff the final size differs from
the prior size. -/
def set_size (s : Widget) (v0 v1 : ℚ) : Widget × List Event :=
  let w0 := max (min v0 ((s.ax0.size : ℚ) * s.ax0.scale)) s.ax0.scale
  let w1 := max (min v1 ((s.ax1.size : ℚ) * s.ax1.scale)) s.ax1.scale
  if s.size0 ≠ w0 ∨ s.size1 ≠ w1 then
    let s' := validate_geometry { s with size0 := w0, size1 := w1 } none none
    if s'.size0 ≠ s.size0 ∨ s'.size1 ≠ s.size1 then (s', [Event.sizeChanged])
    else (s', [])
  else (s, [])

/-- Method `RectangleWidget._set_a_size` (single-component size setter): a
request equal to the current size or nonpositive returns immediately;
otherwise, in navigation mode with the axis cursor past the position, a
shrink shifts the position forward by the shrink amount ("size towards
the edge"); then the size component is committed, the geometry
re-validated, and a size-changed event fires unconditionally. -/
def set_a_size (s : Widget) (idx : Fin 2) (value : ℚ) : Widget × List Event :=
  if s.sizeI idx = value ∨ value ≤ 0 then (s, [])
  else
    let s1 :=
      if s.navigating ∧ (s.axI idx).value > s.posI idx then
        if value < s.sizeI idx then
          s.setPosI idx (s.posI idx + (s.sizeI idx - value))
        else s
      else s
    let s2 := validate_geometry (s1.setSizeI idx value) none none
    (s2, [Event.sizeChanged])

/-- Method `RectangleWidget._increase_xsize`. -/
def increase_xsize (s : Widget) : Widget × List Event :=
  set_a_size s 0 (s.size0 + s.ax0.scale * s.size_step)

/-- Method `RectangleWidget._decrease_xsize`: step the width down by
`scale * size_step`, floored at one scale unit. -/
def decrease_xsize (s : Widget) : Widget × List Event :=
  set_a_size s 0 (max (s.size0 - s.ax0.scale * s.size_step) s.ax0.scale)

/-- Method `RectangleWidget._increase_ysize`. -/
def increase_ysize (s : Widget) : Widget × List Event :=
  set_a_size s 1 (s.size1 + s.ax1.scale * s.size_step)

/-- Method `RectangleWidget._decrease_ysize`. -/
def decrease_ysize (s : Widget) : Widget × List Event :=
  set_a_size s 1 (max (s.size1 - s.ax1.scale * s.size_step) s.ax1.scale)

/-- A Python value passed to / returned by `_parse_bounds_args`: either
a number or a 4-tuple of values. -/
inductive PyVal where
  | num : ℚ → PyVal
  | tup4 : PyVal → PyVal → PyVal → PyVal → PyVal
deriving DecidableEq, Repr

/-- The keyword arguments `set_bounds` / `set_ibounds` accept: each
recognized key is present (`some`) or absent (`none`).  `bounds` may
hold any Python value; the dimension keys hold numbers. -/
structure KWArgs where
  bounds : Option PyVal
  x : Option ℚ
  left : Option ℚ
  y : Option ℚ
  top : Option ℚ
  w : Option ℚ
  width : Option ℚ
  right : Option ℚ
  h : Option ℚ
  height : Option ℚ
  bottom : Option ℚ
deriving DecidableEq, Repr

/-- The kwargs with no keys set. -/
def KWArgs.empty : KWArgs :=
  ⟨none, none, none, none, none, none, none, none, none, none, none⟩

/-- Python's `len(kwargs)`: the number of keys present. -/
def KWArgs.len (k : KWArgs) : ℕ :=
  (if k.bounds.isSome then 1 else 0) + (if k.x.isSome then 1 else 0) +
  (if k.left.isSome then 1 else 0) + (if k.y.isSome then 1 else 0) +
  (if k.top.isSome then 1 else 0) + (if k.w.isSome then 1 else 0) +
  (if k.width.isSome then 1 else 0) + (if k.right.isSome then 1 else 0) +
  (if k.h.isSome then 1 else 0) + (if k.height.isSome then 1 else 0) +
  (if k.bottom.isSome then 1 else 0)

/-- Method `RectangleWidget._parse_bounds_args(args, kwargs)`.  A single
positional argument is returned as-is; four positional arguments are
returned as the 4-tuple `args`; a sole `bounds` keyword returns its
value; every other input falls through to the keyword branch, in which
each dimension is popped with a default taken from the current geometry
(`x`/`left` default `_pos[0]`, `y`/`top` default `_pos[1]`; `right`
converts to a width by subtracting `x`, else `w`/`width` default
`_size[0]`; `bottom` converts to a height by subtracting `y`, else
`h`/`height` default `_size[1]`).  No branch raises. -/
def parse_bounds_args (s : Widget) (args : List PyVal) (kwargs : KWArgs) : PyVal :=
  if h1 : args.length = 1 then
    args.head (by intro hn; rw [hn] at h1; exact absurd h1 (by simp))
  else if args.length = 4 then
    PyVal.tup4 (args.getD 0 (PyVal.num 0)) (args.getD 1 (PyVal.num 0))
      (args.getD 2 (PyVal.num 0)) (args.getD 3 (PyVal.num 0))
  else if kwargs.len = 1 ∧ kwargs.bounds.isSome then
    kwargs.bounds.getD (PyVal.num 0)
  else
    let x := kwargs.x.getD (kwargs.left.getD s.pos0)
    let y := kwargs.y.getD (kwargs.top.getD s.pos1)
    let w := match kwargs.right with
      | some r => r - x
      | none => kwargs.w.getD (kwargs.width.getD s.size0)
    let h := match kwargs.bottom with
      | some b => b - y
      | none => kwargs.h.getD (kwargs.height.getD s.size1)
    PyVal.tup4 (PyVal.num x) (PyVal.num y) (PyVal.num w) (PyVal.num h)

/-- Method `RectangleWidget._get_patch_xy`: the patch's top-left corner,
offset from the stored pixel-center position by half a scale. -/
def get_patch_xy (s : Widget) : ℚ × ℚ :=
  (s.pos0 - (1 / 2) * s.ax0.scale, s.pos1 - (1 / 2) * s.ax1.scale)

/-- Modelled from the spec: `ResizersMixin._get_resizer_offset` is not
part of this source file, and the spec's drag equations (its §4.4
policy and §8 worked example) identify the offset-corrected mouse
coordinate with the mouse coordinate itself, so the handle offset is
modelled as zero. -/
def get_resizer_offset (s : Widget) : ℚ × ℚ := (0, 0)

/-- The horizontal half of the corner-resize resolution in
`_onmousemove` (lines 363-387 of the source), over the picked corner,
the axis scale, the adjusted mouse x and the patch bounds
`b0 = left`, `b2 = right`.  Returns `(posx, newWidth, resizer_picked)`
with `posx = none` when the position is left unchanged. -/
def xresolve (corner : ℕ) (c x b0 b2 : ℚ) : Option ℚ × ℚ × ℕ :=
  if corner % 2 = 0 then
    if x > b2 then (some b2, x - b2, corner + 1)
    else if b2 - x < c then (some (b2 - c), b2 - (b2 - c), corner)
    else (some x, b2 - x, corner)
  else
    if x < b0 then
      let px := if b0 - x < c then b0 - c else x
      (some px, b0 - px, corner - 1)
    else ((none : Option ℚ), x - b0, corner)

/-- The vertical half of the corner-resize resolution in `_onmousemove`
(lines 388-411 of the source); `rpx` is the resizer index left by the
horizontal half, and `b1 = top`, `b3 = bottom`. -/
def yresolve (corner rpx : ℕ) (c y b1 b3 : ℚ) : Option ℚ × ℚ × ℕ :=
  if corner / 2 = 0 then
    if y > b3 then (some b3, y - b3, rpx + 2)
    else if b3 - y < c then (some (b3 - c), b3 - (b3 - c), rpx)
    else (some y, b3 - y, rpx)
  else
    if y < b1 then
      let py := if b1 - y < c then b1 - c else y
      (some py, b1 - py, rpx - 2)
    else ((none : Option ℚ), y - b1, rpx)

/-- Method `RectangleWidget._onmousemove`: if the widget is picked and the
event is inside the axes, either drag the whole patch (offset the mouse
by `pick_offset` and validate) or resolve a corner resize.  The corner
resolution follows the source line by line: per-axis, a drag past the
opposite edge flips the active corner (`resizer_picked` ±1 for x, ±2
for y) and measures the size from the old opposite edge; a too-small
result on the near side clamps the size to one scale unit; otherwise
the dragged edge follows the mouse.  Sizes are then floored to one
scale unit, supplied positions are shifted by half a scale back to the
pixel-center convention, the geometry is validated, and the change
notifier runs against the pre-move geometry. -/
def onmousemove (s : Widget) (mx my : ℚ) (inaxes : Bool) : Widget × List Event :=
  if s.picked ∧ inaxes then
    let old_pos := (s.pos0, s.pos1)
    let old_size := (s.size0, s.size1)
    match s.resizer_picked with
    | none =>
      let s' := validate_geometry s (some (mx - s.pick_offset0))
                  (some (my - s.pick_offset1))
      (s', apply_changes s' old_pos old_size)
    | some corner =>
      let p := get_patch_xy s
      let b0 := p.1
      let b1 := p.2
      let b2 := p.1 + s.size0
      let b3 := p.2 + s.size1
      let off := get_resizer_offset s
      let x := mx + off.1 * (1 / 2 - ((corner % 2 : ℕ) : ℚ))
      let y := my + off.2 * (1 / 2 - ((corner / 2 : ℕ) : ℚ))
      let xres := xresolve corner s.ax0.scale x b0 b2
      let yres := yresolve corner xres.2.2 s.ax1.scale y b1 b3
      let sz0 := if xres.2.1 < s.ax0.scale then s.ax0.scale else xres.2.1
      let sz1 := if yres.2.1 < s.ax1.scale then s.ax1.scale else yres.2.1
      let posx := xres.1.map (fun v => v + (1 / 2) * s.ax0.scale)
      let posy := yres.1.map (fun v => v + (1 / 2) * s.ax1.scale)
      let s' := validate_geometry
        { s with size0 := sz0, size1 := sz1, resizer_picked := some yres.2.2 }
        posx posy
      (s', apply_changes s' old_pos old_size)
  else (s, [])

/-! ## Concrete states for witnesses and counterexamples -/

/-- A 11-point axis over `[0, 10]` with unit scale. -/
def axisA : Axis := ⟨0, 10, 1, 11, 0⟩

/-- A plain widget state: rectangle at `(2, 2)` of size `(3, 3)` on two
`axisA` axes, all interaction and snap flags off. -/
def sampleW : Widget := ⟨2, 2, 3, 3, axisA, axisA, false, 1, false, false, false, none, 0, 0⟩

/-- A widget state with position snapping enabled and a width of `12/5`
that is not a multiple of the scale. -/
def snapW : Widget := ⟨0, 0, 12 / 5, 1, axisA, axisA, false, 1, true, false, false, none, 0, 0⟩

/-- A widget whose width equals the full axis extent `11`. -/
def fullW : Widget := ⟨0, 2, 11, 3, axisA, axisA, false, 1, false, false, false, none, 0, 0⟩

/-- A navigating widget: cursor at `5`, past the rectangle position
`2`. -/
def navW : Widget := ⟨2, 2, 3, 3, ⟨0, 10, 1, 11, 5⟩, ⟨0, 10, 1, 11, 5⟩,
  true, 1, false, false, false, none, 0, 0⟩

/-- A widget whose width already equals one scale unit. -/
def unitW : Widget := ⟨2, 2, 1, 1, axisA, axisA, false, 1, false, false, false, none, 0, 0⟩

/-- A drag state: rectangle at `(2, 2)` of size `(3, 3)`, bottom-right
handle picked. -/
def dragW : Widget := ⟨2, 2, 3, 3, axisA, axisA, false, 1, false, false, true, some 3, 0, 0⟩

/-- A drag state: rectangle at `(5, 5)` of size `(2, 2)`, bottom-right
handle picked. -/
def c6W : Widget := ⟨5, 5, 2, 2, axisA, axisA, false, 1, false, false, true, some 3, 0, 0⟩

/-- Keyword arguments carrying only `x = 7`. -/
def kwX : KWArgs := { KWArgs.empty with x := some 7 }

/-! ## Projection lemmas -/

@[simp] lemma validate_core_size0 (s : Widget) (a b : Option ℚ) :
    (validate_core s a b).size0 = min s.size0 ((s.ax0.size : ℚ) * s.ax0.scale) := rfl

@[simp] lemma validate_core_size1 (s : Widget) (a b : Option ℚ) :
    (validate_core s a b).size1 = min s.size1 ((s.ax1.size : ℚ) * s.ax1.scale) := rfl

@[simp] lemma validate_core_ax0 (s : Widget) (a b : Option ℚ) :
    (validate_core s a b).ax0 = s.ax0 := rfl

@[simp] lemma validate_core_ax1 (s : Widget) (a b : Option ℚ) :
    (validate_core s a b).ax1 = s.ax1 := rfl

@[simp] lemma validate_core_snap_position (s : Widget) (a b : Option ℚ) :
    (validate_core s a b).snap_position = s.snap_position := rfl

@[simp] lemma validate_core_snap_size (s : Widget) (a b : Option ℚ) :
    (validate_core s a b).snap_size = s.snap_size := rfl

@[simp] lemma do_snap_position_size0 (s : Widget) : (do_snap_position s).size0 = s.size0 := rfl

@[simp] lemma do_snap_position_size1 (s : Widget) : (do_snap_position s).size1 = s.size1 := rfl

@[simp] lemma do_snap_position_snap_size (s : Widget) :
    (do_snap_position s).snap_size = s.snap_size := rfl

@[simp] lemma do_snap_position_ax0 (s : Widget) : (do_snap_position s).ax0 = s.ax0 := rfl

@[simp] lemma do_snap_position_ax1 (s : Widget) : (do_snap_position s).ax1 = s.ax1 := rfl

@[simp] lemma do_snap_size_size0 (s : Widget) :
    (do_snap_size s).size0 = snapToStep s.size0 s.ax0.scale := rfl

@[simp] lemma do_snap_size_size1 (s : Widget) :
    (do_snap_size s).size1 = snapToStep s.size1 s.ax1.scale := rfl

/-- With both snap passes disabled, `_validate_geometry` is its
snap-free core. -/
lemma validate_geometry_no_snap (s : Widget) (a b : Option ℚ)
    (hp : s.snap_position = false) (hs : s.snap_size = false) :
    validate_geometry s a b = validate_core s a b := by
  unfold validate_geometry
  simp [hp, hs]

/-- The source's clamp chain is the clamp to `[lo, hi]` when the
interval is nonempty. -/
lemma clampChain_eq_max_min (v lo hi : ℚ) (h : lo ≤ hi) :
    clampChain v lo hi = max lo (min v hi) := by
  unfold clampChain
  split_ifs with h1 h2
  · rw [min_eq_left (le_of_lt (lt_of_lt_of_le h1 h)), max_eq_left h1.le]
  · rw [min_eq_right h2.le, max_eq_right h]
  · rw [min_eq_left (not_lt.mp h2), max_eq_right (not_lt.mp h1)]

/-- Rounding to the nearest multiple of a positive step never exceeds a
whole multiple of that step lying above the input. -/
lemma snapToStep_le (q c : ℚ) (n : ℕ) (hc : 0 < c) (h : q ≤ (n : ℚ) * c) :
    snapToStep q c ≤ (n : ℚ) * c := by
  have h2 : q / c ≤ (n : ℚ) := (div_le_iff₀ hc).mpr h
  have h3 : roundQ (q / c) ≤ (n : ℤ) := by
    unfold roundQ
    have h4 : ⌊q / c + 1 / 2⌋ ≤ ⌊(n : ℚ) + 1 / 2⌋ :=
      Int.floor_mono (add_le_add_right h2 _)
    have h5 : ⌊(n : ℚ) + 1 / 2⌋ = (n : ℤ) := by
      rw [show ((n : ℚ)) = ((n : ℤ) : ℚ) by push_cast; ring, Int.floor_int_add]
      norm_num
    omega
  calc snapToStep q c = (roundQ (q / c) : ℚ) * c := rfl
    _ ≤ (n : ℚ) * c := by
        apply mul_le_mul_of_nonneg_right _ hc.le
        exact_mod_cast h3

/-- The far edge of the core-validated geometry never exceeds
`high_value + scale` on the first axis. -/
lemma validate_core_pos0_add_size0_le (s : Widget) (a b : Option ℚ) :
    (validate_core s a b).pos0 + (validate_core s a b).size0
      ≤ s.ax0.high_value + s.ax0.scale := by
  unfold validate_core
  dsimp only
  split_ifs with h
  · linarith
  · linarith [not_lt.mp h]

/-- The far edge of the core-validated geometry never exceeds
`high_value + scale` on the second axis. -/
lemma validate_core_pos1_add_size1_le (s : Widget) (a b : Option ℚ) :
    (validate_core s a b).pos1 + (validate_core s a b).size1
      ≤ s.ax1.high_value + s.ax1.scale := by
  unfold validate_core
  dsimp only
  split_ifs with h
  · linarith
  · linarith [not_lt.mp h]

/-- The size components produced by `_validate_geometry` (snaps
included). -/
lemma validate_geometry_size0_eq (s : Widget) (a b : Option ℚ) :
    (validate_geometry s a b).size0 =
      if s.snap_size then
        snapToStep (min s.size0 ((s.ax0.size : ℚ) * s.ax0.scale)) s.ax0.scale
      else min s.size0 ((s.ax0.size : ℚ) * s.ax0.scale) := by
  unfold validate_geometry
  cases hsp : s.snap_position <;> cases hss : s.snap_size <;> simp [hsp, hss]

/-- Second-axis analogue of `validate_geometry_size0_eq`. -/
lemma validate_geometry_size1_eq (s : Widget) (a b : Option ℚ) :
    (validate_geometry s a b).size1 =
      if s.snap_size then
        snapToStep (min s.size1 ((s.ax1.size : ℚ) * s.ax1.scale)) s.ax1.scale
      else min s.size1 ((s.ax1.size : ℚ) * s.ax1.scale) := by
  unfold validate_geometry
  cases hsp : s.snap_position <;> cases hss : s.snap_size <;> simp [hsp, hss]

/-! ## C1 -/

/-- C1, counterexample: with position snapping enabled (`snapW`), the
candidate position `10` is clamped and pulled back to `43/5`, but the
snap pass then rounds it up to `9`, so the stored geometry violates
`pos + size <= high_value + scale` (`9 + 12/5 > 11`) on the first
axis.  The claimed invariant fails for this candidate. -/
theorem C1_counterexample :
    ¬ ((validate_geometry snapW (some 10) (some 0)).pos0
         + (validate_geometry snapW (some 10) (some 0)).size0
       ≤ snapW.ax0.high_value + snapW.ax0.scale) := by
  norm_num [validate_geometry, validate_core, do_snap_position, do_snap_size,
    snapToStep, roundQ, clampChain, snapW, axisA]

/-- C1, amended: for every state and every candidate (including
arbitrary out-of-range candidates), the geometry stored by
`_validate_geometry` satisfies `size0 <= ax0.size * ax0.scale` and
`size1 <= ax1.size * ax1.scale`; and whenever the snap passes are
disabled it also satisfies `pos + size <= high_value + scale`
componentwise on both axes. -/
theorem C1_amended_validate_geometry_bounds (s : Widget) (a b : Option ℚ)
    (h0 : 0 < s.ax0.scale) (h1 : 0 < s.ax1.scale) :
    ((validate_geometry s a b).size0 ≤ (s.ax0.size : ℚ) * s.ax0.scale ∧
     (validate_geometry s a b).size1 ≤ (s.ax1.size : ℚ) * s.ax1.scale) ∧
    (s.snap_position = false → s.snap_size = false →
      (validate_geometry s a b).pos0 + (validate_geometry s a b).size0
          ≤ s.ax0.high_value + s.ax0.scale ∧
      (validate_geometry s a b).pos1 + (validate_geometry s a b).size1
          ≤ s.ax1.high_value + s.ax1.scale) := by
  refine ⟨⟨?_, ?_⟩, fun hp hs => ?_⟩
  · rw [validate_geometry_size0_eq]
    split_ifs
    · exact snapToStep_le _ _ _ h0 (min_le_right _ _)
    · exact min_le_right _ _
  · rw [validate_geometry_size1_eq]
    split_ifs
    · exact snapToStep_le _ _ _ h1 (min_le_right _ _)
    · exact min_le_right _ _
  · rw [validate_geometry_no_snap s a b hp hs]
    exact ⟨validate_core_pos0_add_size0_le s a b, validate_core_pos1_add_size1_le s a b⟩

/-- C1, witness: the amended theorem applied to `sampleW` with an
oversized candidate passed through `_set_size`-style validation. -/
theorem C1_amended_witness :
    ((validate_geometry sampleW (some 99) (some 99)).size0
        ≤ (sampleW.ax0.size : ℚ) * sampleW.ax0.scale) ∧
    ((validate_geometry sampleW (some 99) (some 99)).pos0
        + (validate_geometry sampleW (some 99) (some 99)).size0
      ≤ sampleW.ax0.high_value + sampleW.ax0.scale) :=
  ⟨(C1_amended_validate_geometry_bounds sampleW (some 99) (some 99)
      (by decide) (by decide)).1.1,
   ((C1_amended_validate_geometry_bounds sampleW (some 99) (some 99)
      (by decide) (by decide)).2 rfl rfl).1⟩

/-! ## C4 -/

/-- C4: in the snap-free part of `_validate_geometry`, a supplied
position candidate is clamped componentwise to
`[low_value, high_value]`; then, if the clamped position plus the
(extent-limited) size exceeds `high_value + scale`, the position is
recomputed as that ceiling minus the size — and the size components are
exactly the extent-limited inputs, untouched by this pull-back step. -/
theorem C4_position_clamp_and_edge_pullback (s : Widget) (vx vy : ℚ)
    (hx : s.ax0.low_value ≤ s.ax0.high_value)
    (hy : s.ax1.low_value ≤ s.ax1.high_value) :
    (validate_core s (some vx) (some vy)).size0
        = min s.size0 ((s.ax0.size : ℚ) * s.ax0.scale) ∧
    (validate_core s (some vx) (some vy)).size1
        = min s.size1 ((s.ax1.size : ℚ) * s.ax1.scale) ∧
    (validate_core s (some vx) (some vy)).pos0
        = (if max s.ax0.low_value (min vx s.ax0.high_value)
               + min s.size0 ((s.ax0.size : ℚ) * s.ax0.scale)
               > s.ax0.high_value + s.ax0.scale
           then s.ax0.high_value + s.ax0.scale
               - min s.size0 ((s.ax0.size : ℚ) * s.ax0.scale)
           else max s.ax0.low_value (min vx s.ax0.high_value)) ∧
    (validate_core s (some vx) (some vy)).pos1
        = (if max s.ax1.low_value (min vy s.ax1.high_value)
               + min s.size1 ((s.ax1.size : ℚ) * s.ax1.scale)
               > s.ax1.high_value + s.ax1.scale
           then s.ax1.high_value + s.ax1.scale
               - min s.size1 ((s.ax1.size : ℚ) * s.ax1.scale)
           else max s.ax1.low_value (min vy s.ax1.high_value)) := by
  have hcc0 : clampChain vx s.ax0.low_value s.ax0.high_value
      = max s.ax0.low_value (min vx s.ax0.high_value) := clampChain_eq_max_min _ _ _ hx
  have hcc1 : clampChain vy s.ax1.low_value s.ax1.high_value
      = max s.ax1.low_value (min vy s.ax1.high_value) := clampChain_eq_max_min _ _ _ hy
  refine ⟨rfl, rfl, ?_, ?_⟩
  · calc (validate_core s (some vx) (some vy)).pos0
        = (if clampChain vx s.ax0.low_value s.ax0.high_value
               + min s.size0 ((s.ax0.size : ℚ) * s.ax0.scale)
               > s.ax0.high_value + s.ax0.scale
           then s.ax0.high_value + s.ax0.scale
               - min s.size0 ((s.ax0.size : ℚ) * s.ax0.scale)
           else clampChain vx s.ax0.low_value s.ax0.high_value) := rfl
      _ = _ := by rw [hcc0]
  · calc (validate_core s (some vx) (some vy)).pos1
        = (if clampChain vy s.ax1.low_value s.ax1.high_value
               + min s.size1 ((s.ax1.size : ℚ) * s.ax1.scale)
               > s.ax1.high_value + s.ax1.scale
           then s.ax1.high_value + s.ax1.scale
               - min s.size1 ((s.ax1.size : ℚ) * s.ax1.scale)
           else clampChain vy s.ax1.low_value s.ax1.high_value) := rfl
      _ = _ := by rw [hcc1]

/-- C4, witness: the theorem applied to `sampleW` with candidates far
out of range on both sides. -/
theorem C4_witness :
    (validate_core sampleW (some 20) (some (-5))).pos0
        = (if max sampleW.ax0.low_value (min 20 sampleW.ax0.high_value)
               + min sampleW.size0 ((sampleW.ax0.size : ℚ) * sampleW.ax0.scale)
               > sampleW.ax0.high_value + sampleW.ax0.scale
           then sampleW.ax0.high_value + sampleW.ax0.scale
               - min sampleW.size0 ((sampleW.ax0.size : ℚ) * sampleW.ax0.scale)
           else max sampleW.ax0.low_value (min 20 sampleW.ax0.high_value)) :=
  (C4_position_clamp_and_edge_pullback sampleW 20 (-5) (by decide) (by decide)).2.2.1

/-! ## C2 -/

/-- C2: `set_bounds` raises a `ValueError` with a distinct message per
field — `left` when `x` is outside `[low_value, high_value]`, `top`
when `y` is (and `x` is fine), `width`/`right` when `x + w` is outside
`[low_value, high_value + scale]` (and `x`, `y` are fine), and
`height`/`bottom` when `y + h` is; the four messages are pairwise
distinct; and whenever it raises, the state is returned exactly as it
was with no events fired (no partial mutation). -/
theorem C2_set_bounds_raises_distinct_no_mutation (s : Widget) (x y w h : ℚ) :
    (¬ (s.ax0.low_value ≤ x ∧ x ≤ s.ax0.high_value) →
      set_bounds s x y w h = (s, [], some "`left` value is not in range.")) ∧
    ((s.ax0.low_value ≤ x ∧ x ≤ s.ax0.high_value) →
     ¬ (s.ax1.low_value ≤ y ∧ y ≤ s.ax1.high_value) →
      set_bounds s x y w h = (s, [], some "`top` value is not in range.")) ∧
    ((s.ax0.low_value ≤ x ∧ x ≤ s.ax0.high_value) →
     (s.ax1.low_value ≤ y ∧ y ≤ s.ax1.high_value) →
     ¬ (s.ax0.low_value ≤ x + w ∧ x + w ≤ s.ax0.high_value + s.ax0.scale) →
      set_bounds s x y w h = (s, [], some "`width` or `right` value is not in range.")) ∧
    ((s.ax0.low_value ≤ x ∧ x ≤ s.ax0.high_value) →
     (s.ax1.low_value ≤ y ∧ y ≤ s.ax1.high_value) →
     (s.ax0.low_value ≤ x + w ∧ x + w ≤ s.ax0.high_value + s.ax0.scale) →
     ¬ (s.ax1.low_value ≤ y + h ∧ y + h ≤ s.ax1.high_value + s.ax1.scale) →
      set_bounds s x y w h = (s, [], some "`height` or `bottom` value is not in range.")) ∧
    (∀ st ev m, set_bounds s x y w h = (st, ev, some m) → st = s ∧ ev = []) ∧
    (["`left` value is not in range.", "`top` value is not in range.",
      "`width` or `right` value is not in range.",
      "`height` or `bottom` value is not in range."] : List String).Pairwise
        (fun a b => a ≠ b) := by
  refine ⟨fun hx => ?_, fun hx hy => ?_, fun hx hy hw => ?_, fun hx hy hw hh => ?_,
    fun st ev m hm => ?_, by decide⟩
  · unfold set_bounds
    rw [if_pos hx]
  · unfold set_bounds
    rw [if_neg (not_not_intro hx), if_pos hy]
  · unfold set_bounds
    rw [if_neg (not_not_intro hx), if_neg (not_not_intro hy), if_pos hw]
  · unfold set_bounds
    rw [if_neg (not_not_intro hx), if_neg (not_not_intro hy),
      if_neg (not_not_intro hw), if_pos hh]
  · unfold set_bounds at hm
    split_ifs at hm
    all_goals injection hm with h1 h2
    all_goals injection h2 with h2a h2b
    all_goals first
      | exact Option.noConfusion h2b
      | exact ⟨h1.symm, h2a.symm⟩

/-- C2, witness: calling `set_bounds` on `sampleW` with `x = 99`
(outside `[0, 10]`) returns the untouched state, no events, and the
`left` message. -/
theorem C2_witness :
    set_bounds sampleW 99 2 1 1 = (sampleW, [], some "`left` value is not in range.") :=
  (C2_set_bounds_raises_distinct_no_mutation sampleW 99 2 1 1).1
    (by norm_num [sampleW, axisA])

/-! ## C3 -/

/-- C3: whenever `(x, y, w, h)` passes the range checks (`x`, `y` within
`[low_value, high_value]` of their axes and `x + w`, `y + h` within
`[low_value, high_value + scale]`), `set_bounds` succeeds and the
committed position and size read back exactly `(x, y)` and `(w, h)`. -/
theorem C3_set_bounds_roundtrip (s : Widget) (x y w h : ℚ)
    (hx : s.ax0.low_value ≤ x ∧ x ≤ s.ax0.high_value)
    (hy : s.ax1.low_value ≤ y ∧ y ≤ s.ax1.high_value)
    (hw : s.ax0.low_value ≤ x + w ∧ x + w ≤ s.ax0.high_value + s.ax0.scale)
    (hh : s.ax1.low_value ≤ y + h ∧ y + h ≤ s.ax1.high_value + s.ax1.scale) :
    (set_bounds s x y w h).2.2 = none ∧
    (set_bounds s x y w h).1.pos0 = x ∧ (set_bounds s x y w h).1.pos1 = y ∧
    (set_bounds s x y w h).1.size0 = w ∧ (set_bounds s x y w h).1.size1 = h := by
  unfold set_bounds
  rw [if_neg (not_not_intro hx), if_neg (not_not_intro hy),
    if_neg (not_not_intro hw), if_neg (not_not_intro hh)]
  exact ⟨rfl, rfl, rfl, rfl, rfl⟩

/-- C3, witness: `set_bounds sampleW 1 2 3 4` succeeds and reads back
exactly those bounds. -/
theorem C3_witness :
    (set_bounds sampleW 1 2 3 4).2.2 = none ∧
    (set_bounds sampleW 1 2 3 4).1.pos0 = 1 ∧ (set_bounds sampleW 1 2 3 4).1.pos1 = 2 ∧
    (set_bounds sampleW 1 2 3 4).1.size0 = 3 ∧ (set_bounds sampleW 1 2 3 4).1.size1 = 4 :=
  C3_set_bounds_roundtrip sampleW 1 2 3 4
    (by norm_num [sampleW, axisA]) (by norm_num [sampleW, axisA])
    (by norm_num [sampleW, axisA]) (by norm_num [sampleW, axisA])

/-! ## Component-update projection lemmas -/

@[simp] lemma setPosI_ax0 (s : Widget) (i : Fin 2) (v : ℚ) : (s.setPosI i v).ax0 = s.ax0 := by
  unfold Widget.setPosI; split_ifs <;> rfl

@[simp] lemma setPosI_ax1 (s : Widget) (i : Fin 2) (v : ℚ) : (s.setPosI i v).ax1 = s.ax1 := by
  unfold Widget.setPosI; split_ifs <;> rfl

@[simp] lemma setPosI_size0 (s : Widget) (i : Fin 2) (v : ℚ) : (s.setPosI i v).size0 = s.size0 := by
  unfold Widget.setPosI; split_ifs <;> rfl

@[simp] lemma setPosI_size1 (s : Widget) (i : Fin 2) (v : ℚ) : (s.setPosI i v).size1 = s.size1 := by
  unfold Widget.setPosI; split_ifs <;> rfl

@[simp] lemma setPosI_snap_position (s : Widget) (i : Fin 2) (v : ℚ) :
    (s.setPosI i v).snap_position = s.snap_position := by
  unfold Widget.setPosI; split_ifs <;> rfl

@[simp] lemma setPosI_snap_size (s : Widget) (i : Fin 2) (v : ℚ) :
    (s.setPosI i v).snap_size = s.snap_size := by
  unfold Widget.setPosI; split_ifs <;> rfl

@[simp] lemma setSizeI_ax0 (s : Widget) (i : Fin 2) (v : ℚ) : (s.setSizeI i v).ax0 = s.ax0 := by
  unfold Widget.setSizeI; split_ifs <;> rfl

@[simp] lemma setSizeI_ax1 (s : Widget) (i : Fin 2) (v : ℚ) : (s.setSizeI i v).ax1 = s.ax1 := by
  unfold Widget.setSizeI; split_ifs <;> rfl

@[simp] lemma setSizeI_pos0 (s : Widget) (i : Fin 2) (v : ℚ) : (s.setSizeI i v).pos0 = s.pos0 := by
  unfold Widget.setSizeI; split_ifs <;> rfl

@[simp] lemma setSizeI_pos1 (s : Widget) (i : Fin 2) (v : ℚ) : (s.setSizeI i v).pos1 = s.pos1 := by
  unfold Widget.setSizeI; split_ifs <;> rfl

@[simp] lemma setSizeI_snap_position (s : Widget) (i : Fin 2) (v : ℚ) :
    (s.setSizeI i v).snap_position = s.snap_position := by
  unfold Widget.setSizeI; split_ifs <;> rfl

@[simp] lemma setSizeI_snap_size (s : Widget) (i : Fin 2) (v : ℚ) :
    (s.setSizeI i v).snap_size = s.snap_size := by
  unfold Widget.setSizeI; split_ifs <;> rfl

@[simp] lemma setSizeI_zero_size0 (s : Widget) (v : ℚ) : (s.setSizeI 0 v).size0 = v := rfl

@[simp] lemma setSizeI_one_size1 (s : Widget) (v : ℚ) : (s.setSizeI 1 v).size1 = v := rfl

@[simp] lemma setPosI_zero_pos0 (s : Widget) (v : ℚ) : (s.setPosI 0 v).pos0 = v := rfl

@[simp] lemma setPosI_one_pos1 (s : Widget) (v : ℚ) : (s.setPosI 1 v).pos1 = v := rfl

@[simp] lemma posI_zero (s : Widget) : s.posI 0 = s.pos0 := rfl

@[simp] lemma posI_one (s : Widget) : s.posI 1 = s.pos1 := rfl

@[simp] lemma sizeI_zero (s : Widget) : s.sizeI 0 = s.size0 := rfl

@[simp] lemma sizeI_one (s : Widget) : s.sizeI 1 = s.size1 := rfl

@[simp] lemma axI_zero (s : Widget) : s.axI 0 = s.ax0 := rfl

@[simp] lemma axI_one (s : Widget) : s.axI 1 = s.ax1 := rfl

/-! ## C7 -/

/-- C7, counterexample: on `fullW` (width already the full extent `11`),
`_set_a_size 0 12` commits geometry identical to the prior geometry —
validation clamps the requested `12` back to `11` — yet fires a
size-changed event, so an operation that commits unchanged geometry
does not fire zero notifications. -/
theorem C7_counterexample : set_a_size fullW 0 12 = (fullW, [Event.sizeChanged]) := by
  norm_num [set_a_size, Widget.sizeI, Widget.axI, Widget.posI, Widget.setSizeI,
    Widget.setPosI, validate_geometry, validate_core, clampChain, min_def, max_def,
    fullW, axisA]

/-- C7, amended: `_set_size` fires a size-changed event iff the
committed size differs from the prior size and never fires a
position-changed event (even when validation moves the position);
`_set_a_size` returns the state untouched with zero events when the
requested value equals the current size or is nonpositive, fires
exactly one size-changed event for every other request — even when
validation restores the prior size — and never fires a position-changed
event (even when the position is mutated). -/
theorem C7_amended_notification_law :
    (∀ s : Widget, ∀ v0 v1 : ℚ,
      ((set_size s v0 v1).2 = [Event.sizeChanged] ↔
        ((set_size s v0 v1).1.size0 ≠ s.size0 ∨ (set_size s v0 v1).1.size1 ≠ s.size1)) ∧
      Event.positionChanged ∉ (set_size s v0 v1).2) ∧
    (∀ s : Widget, ∀ idx : Fin 2, ∀ v : ℚ,
      ((s.sizeI idx = v ∨ v ≤ 0) → set_a_size s idx v = (s, [])) ∧
      (s.sizeI idx ≠ v → 0 < v → (set_a_size s idx v).2 = [Event.sizeChanged]) ∧
      Event.positionChanged ∉ (set_a_size s idx v).2) := by
  constructor
  · intro s v0 v1
    simp only [set_size]
    split_ifs with h1 h2
    · exact ⟨iff_of_true rfl h2, by simp⟩
    · exact ⟨iff_of_false (by simp) h2, by simp⟩
    · exact ⟨iff_of_false (by simp) (by simp), by simp⟩
  · intro s idx v
    refine ⟨fun h => ?_, fun hne hpos => ?_, ?_⟩
    · unfold set_a_size
      rw [if_pos h]
    · unfold set_a_size
      rw [if_neg (not_or.mpr ⟨fun he => hne he, not_le.mpr hpos⟩)]
    · simp only [set_a_size]
      split_ifs <;> simp

/-- C7, witness: the amended law applied to `sampleW` with a request
equal to the current width: state untouched, zero events. -/
theorem C7_amended_witness : set_a_size sampleW 0 3 = (sampleW, []) :=
  (C7_amended_notification_law.2 sampleW 0 3).1
    (Or.inl (by norm_num [Widget.sizeI, sampleW]))

/-! ## C10 -/

/-- First-axis view of `validate_core` on an unsupplied candidate. -/
lemma validate_core_pos0_none (s : Widget) (b : Option ℚ) :
    (validate_core s none b).pos0 =
      if s.pos0 + min s.size0 ((s.ax0.size : ℚ) * s.ax0.scale)
           > s.ax0.high_value + s.ax0.scale
      then s.ax0.high_value + s.ax0.scale
           - min s.size0 ((s.ax0.size : ℚ) * s.ax0.scale)
      else s.pos0 := rfl

/-- Second-axis view of `validate_core` on an unsupplied candidate. -/
lemma validate_core_pos1_none (s : Widget) (a : Option ℚ) :
    (validate_core s a none).pos1 =
      if s.pos1 + min s.size1 ((s.ax1.size : ℚ) * s.ax1.scale)
           > s.ax1.high_value + s.ax1.scale
      then s.ax1.high_value + s.ax1.scale
           - min s.size1 ((s.ax1.size : ℚ) * s.ax1.scale)
      else s.pos1 := rfl

/-- Navigation-mode shrink along the first axis: the position advances
by the shrink amount and only a size event fires. -/
lemma set_a_size_nav_shift0 (s : Widget) (v : ℚ)
    (hnav : s.navigating = true) (hcur : s.pos0 < s.ax0.value)
    (hpos : 0 < v) (hlt : v < s.size0)
    (hsz : s.size0 ≤ ((s.ax0.size : ℚ) * s.ax0.scale))
    (hbound : s.pos0 + s.size0 ≤ s.ax0.high_value + s.ax0.scale)
    (hsp : s.snap_position = false) (hss : s.snap_size = false) :
    (set_a_size s 0 v).1.pos0 = s.pos0 + (s.size0 - v) ∧
    (set_a_size s 0 v).2 = [Event.sizeChanged] := by
  unfold set_a_size
  rw [if_neg (not_or.mpr ⟨by simpa [Widget.sizeI] using (ne_of_gt hlt),
       not_le.mpr hpos⟩)]
  rw [if_pos ⟨by rw [hnav], by simpa [Widget.axI, Widget.posI] using hcur⟩]
  rw [if_pos (by simpa [Widget.sizeI] using hlt)]
  refine ⟨?_, rfl⟩
  show (validate_geometry ((s.setPosI 0 (s.posI 0 + (s.sizeI 0 - v))).setSizeI 0 v)
      none none).pos0 = s.pos0 + (s.size0 - v)
  rw [validate_geometry_no_snap _ _ _ (by simp [hsp]) (by simp [hss]),
    validate_core_pos0_none]
  have hmin : min ((s.setPosI 0 (s.posI 0 + (s.sizeI 0 - v))).setSizeI 0 v).size0
      ((((s.setPosI 0 (s.posI 0 + (s.sizeI 0 - v))).setSizeI 0 v).ax0.size : ℚ)
        * ((s.setPosI 0 (s.posI 0 + (s.sizeI 0 - v))).setSizeI 0 v).ax0.scale) = v := by
    simp only [setSizeI_zero_size0, setSizeI_ax0, setPosI_ax0]
    exact min_eq_left (le_trans hlt.le hsz)
  rw [hmin]
  simp only [setSizeI_pos0, setPosI_zero_pos0, setSizeI_ax0, setPosI_ax0,
    posI_zero, sizeI_zero]
  rw [if_neg (by push_neg; linarith)]

/-- Navigation-mode shrink along the second axis: symmetric to
`set_a_size_nav_shift0`. -/
lemma set_a_size_nav_shift1 (s : Widget) (v : ℚ)
    (hnav : s.navigating = true) (hcur : s.pos1 < s.ax1.value)
    (hpos : 0 < v) (hlt : v < s.size1)
    (hsz : s.size1 ≤ ((s.ax1.size : ℚ) * s.ax1.scale))
    (hbound : s.pos1 + s.size1 ≤ s.ax1.high_value + s.ax1.scale)
    (hsp : s.snap_position = false) (hss : s.snap_size = false) :
    (set_a_size s 1 v).1.pos1 = s.pos1 + (s.size1 - v) ∧
    (set_a_size s 1 v).2 = [Event.sizeChanged] := by
  unfold set_a_size
  rw [if_neg (not_or.mpr ⟨by simpa [Widget.sizeI] using (ne_of_gt hlt),
       not_le.mpr hpos⟩)]
  rw [if_pos ⟨by rw [hnav], by simpa [Widget.axI, Widget.posI] using hcur⟩]
  rw [if_pos (by simpa [Widget.sizeI] using hlt)]
  refine ⟨?_, rfl⟩
  show (validate_geometry ((s.setPosI 1 (s.posI 1 + (s.sizeI 1 - v))).setSizeI 1 v)
      none none).pos1 = s.pos1 + (s.size1 - v)
  rw [validate_geometry_no_snap _ _ _ (by simp [hsp]) (by simp [hss]),
    validate_core_pos1_none]
  have hmin : min ((s.setPosI 1 (s.posI 1 + (s.sizeI 1 - v))).setSizeI 1 v).size1
      ((((s.setPosI 1 (s.posI 1 + (s.sizeI 1 - v))).setSizeI 1 v).ax1.size : ℚ)
        * ((s.setPosI 1 (s.posI 1 + (s.sizeI 1 - v))).setSizeI 1 v).ax1.scale) = v := by
    simp only [setSizeI_one_size1, setSizeI_ax1, setPosI_ax1]
    exact min_eq_left (le_trans hlt.le hsz)
  rw [hmin]
  simp only [setSizeI_pos1, setPosI_one_pos1, setSizeI_ax1, setPosI_ax1,
    posI_one, sizeI_one]
  rw [if_neg (by push_neg; linarith)]

/-- C10: in navigation mode, when the axis cursor lies past the
rectangle's position on the picked axis, a size decrease through
`_set_a_size` shifts the position forward by the shrink amount — the
position genuinely changes — yet the only notification fired is a
single size-changed event, with no position-changed event. -/
theorem C10_nav_shrink_moves_position_fires_only_size_event
    (s : Widget) (idx : Fin 2) (v : ℚ)
    (hnav : s.navigating = true)
    (hcur : s.posI idx < (s.axI idx).value)
    (hpos : 0 < v) (hlt : v < s.sizeI idx)
    (hsz : s.sizeI idx ≤ ((s.axI idx).size : ℚ) * (s.axI idx).scale)
    (hbound : s.posI idx + s.sizeI idx ≤ (s.axI idx).high_value + (s.axI idx).scale)
    (hsp : s.snap_position = false) (hss : s.snap_size = false) :
    (set_a_size s idx v).1.posI idx = s.posI idx + (s.sizeI idx - v) ∧
    (set_a_size s idx v).1.posI idx ≠ s.posI idx ∧
    (set_a_size s idx v).2 = [Event.sizeChanged] := by
  rcases (by decide : ∀ i : Fin 2, i = 0 ∨ i = 1) idx with rfl | rfl
  · simp only [axI_zero, posI_zero, sizeI_zero] at hcur hlt hsz hbound ⊢
    obtain ⟨h1, h2⟩ := set_a_size_nav_shift0 s v hnav hcur hpos hlt hsz hbound hsp hss
    exact ⟨h1, by rw [h1]; exact (lt_add_of_pos_right s.pos0 (by linarith)).ne', h2⟩
  · simp only [axI_one, posI_one, sizeI_one] at hcur hlt hsz hbound ⊢
    obtain ⟨h1, h2⟩ := set_a_size_nav_shift1 s v hnav hcur hpos hlt hsz hbound hsp hss
    exact ⟨h1, by rw [h1]; exact (lt_add_of_pos_right s.pos1 (by linarith)).ne', h2⟩

/-- C10, witness: shrinking `navW`'s width from `3` to `1` moves the
position from `2` to `4` and fires only the size event. -/
theorem C10_witness :
    (set_a_size navW 0 1).1.posI 0 = navW.posI 0 + (navW.sizeI 0 - 1) ∧
    (set_a_size navW 0 1).1.posI 0 ≠ navW.posI 0 ∧
    (set_a_size navW 0 1).2 = [Event.sizeChanged] :=
  C10_nav_shrink_moves_position_fires_only_size_event navW 0 1 rfl
    (by norm_num [navW, Widget.posI, Widget.axI])
    (by norm_num)
    (by norm_num [navW, Widget.sizeI])
    (by norm_num [navW, Widget.sizeI, Widget.axI])
    (by norm_num [navW, Widget.posI, Widget.sizeI, Widget.axI])
    rfl rfl

/-! ## C9 -/

/-- C9: the keyboard width decrease commits exactly
`max (width - scale * size_step) scale` — the step-down floored at one
scale unit — so the width never drops below one scale unit, and when
the width already equals one scale unit the whole operation returns the
state untouched with zero events. -/
theorem C9_decrease_width_floored (s : Widget)
    (hscale : 0 < s.ax0.scale) (hstep : 0 < s.size_step)
    (hge : s.ax0.scale ≤ s.size0)
    (hext : s.size0 ≤ (s.ax0.size : ℚ) * s.ax0.scale)
    (hss : s.snap_size = false) :
    (decrease_xsize s).1.size0
        = max (s.size0 - s.ax0.scale * s.size_step) s.ax0.scale ∧
    s.ax0.scale ≤ (decrease_xsize s).1.size0 ∧
    (s.size0 = s.ax0.scale → decrease_xsize s = (s, [])) := by
  have hd : 0 < s.ax0.scale * s.size_step := mul_pos hscale hstep
  by_cases hsz : s.size0 = s.ax0.scale
  · have hv : max (s.size0 - s.ax0.scale * s.size_step) s.ax0.scale = s.ax0.scale :=
      max_eq_right (by linarith)
    have hres : decrease_xsize s = (s, []) := by
      unfold decrease_xsize set_a_size
      rw [if_pos (Or.inl (by rw [sizeI_zero, hv, hsz]))]
    rw [hres, hv]
    exact ⟨hsz, hge, fun _ => rfl⟩
  · have hgt : s.ax0.scale < s.size0 := lt_of_le_of_ne hge (fun h => hsz h.symm)
    set v := max (s.size0 - s.ax0.scale * s.size_step) s.ax0.scale with hvdef
    have hvlt : v < s.size0 := max_lt (by linarith) hgt
    have hvpos : 0 < v := lt_of_lt_of_le hscale (le_max_right _ _)
    have hvle : v ≤ (s.ax0.size : ℚ) * s.ax0.scale := le_trans hvlt.le hext
    have hsz0 : (decrease_xsize s).1.size0 = v := by
      unfold decrease_xsize set_a_size
      rw [← hvdef]
      rw [if_neg (not_or.mpr ⟨by rw [sizeI_zero]; exact (ne_of_gt hvlt),
        not_le.mpr hvpos⟩)]
      dsimp only
      split_ifs with h1 h2
      · rw [validate_geometry_size0_eq]
        simp [hss, min_eq_left hvle]
      · rw [validate_geometry_size0_eq]
        simp [hss, min_eq_left hvle]
      · rw [validate_geometry_size0_eq]
        simp [hss, min_eq_left hvle]
    exact ⟨hsz0, by rw [hsz0]; exact le_max_right _ _, fun h => absurd h hsz⟩

/-- C9, witness: on `sampleW` the width steps down by one floored
scale, and on `unitW` (width already one scale unit) the operation is a
no-op with zero events. -/
theorem C9_witness :
    ((decrease_xsize sampleW).1.size0
        = max (sampleW.size0 - sampleW.ax0.scale * sampleW.size_step) sampleW.ax0.scale) ∧
    decrease_xsize unitW = (unitW, []) :=
  ⟨(C9_decrease_width_floored sampleW (by norm_num [sampleW, axisA])
      (by norm_num [sampleW]) (by norm_num [sampleW, axisA])
      (by norm_num [sampleW, axisA]) rfl).1,
   (C9_decrease_width_floored unitW (by norm_num [unitW, axisA])
      (by norm_num [unitW]) (by norm_num [unitW, axisA])
      (by norm_num [unitW, axisA]) rfl).2.2 (by norm_num [unitW, axisA])⟩

/-! ## C5 -/

/-- Validation never touches the picked-resizer index. -/
lemma validate_geometry_resizer_picked (s : Widget) (a b : Option ℚ) :
    (validate_geometry s a b).resizer_picked = s.resizer_picked := by
  unfold validate_geometry do_snap_position do_snap_size
  dsimp only
  split_ifs <;> rfl

/-- Left-start drag flipped past the right edge. -/
lemma xresolve_even_flip (corner : ℕ) (c x b0 b2 : ℚ)
    (hpar : corner % 2 = 0) (h1 : b2 < x) :
    xresolve corner c x b0 b2 = (some b2, x - b2, corner + 1) := by
  unfold xresolve; rw [if_pos hpar, if_pos h1]

/-- Left-start drag leaving less than one scale of width. -/
lemma xresolve_even_small (corner : ℕ) (c x b0 b2 : ℚ)
    (hpar : corner % 2 = 0) (h1 : ¬ b2 < x) (h2 : b2 - x < c) :
    xresolve corner c x b0 b2 = (some (b2 - c), b2 - (b2 - c), corner) := by
  unfold xresolve; rw [if_pos hpar, if_neg h1, if_pos h2]

/-- Left-start drag moving the left edge freely. -/
lemma xresolve_even_move (corner : ℕ) (c x b0 b2 : ℚ)
    (hpar : corner % 2 = 0) (h1 : ¬ b2 < x) (h2 : ¬ (b2 - x < c)) :
    xresolve corner c x b0 b2 = (some x, b2 - x, corner) := by
  unfold xresolve; rw [if_pos hpar, if_neg h1, if_neg h2]

/-- Right-start drag flipped past the left edge by less than a scale. -/
lemma xresolve_odd_flip_small (corner : ℕ) (c x b0 b2 : ℚ)
    (hpar : ¬ corner % 2 = 0) (h1 : x < b0) (h2 : b0 - x < c) :
    xresolve corner c x b0 b2 = (some (b0 - c), b0 - (b0 - c), corner - 1) := by
  unfold xresolve; rw [if_neg hpar, if_pos h1, if_pos h2]

/-- Right-start drag flipped past the left edge. -/
lemma xresolve_odd_flip (corner : ℕ) (c x b0 b2 : ℚ)
    (hpar : ¬ corner % 2 = 0) (h1 : x < b0) (h2 : ¬ (b0 - x < c)) :
    xresolve corner c x b0 b2 = (some x, b0 - x, corner - 1) := by
  unfold xresolve; rw [if_neg hpar, if_pos h1, if_neg h2]

/-- Right-start drag moving the right edge. -/
lemma xresolve_odd_move (corner : ℕ) (c x b0 b2 : ℚ)
    (hpar : ¬ corner % 2 = 0) (h1 : ¬ x < b0) :
    xresolve corner c x b0 b2 = (none, x - b0, corner) := by
  unfold xresolve; rw [if_neg hpar, if_neg h1]

/-- Top-start drag flipped past the bottom edge. -/
lemma yresolve_top_flip (corner rpx : ℕ) (c y b1 b3 : ℚ)
    (hpar : corner / 2 = 0) (h1 : b3 < y) :
    yresolve corner rpx c y b1 b3 = (some b3, y - b3, rpx + 2) := by
  unfold yresolve; rw [if_pos hpar, if_pos h1]

/-- Top-start drag leaving less than one scale of height. -/
lemma yresolve_top_small (corner rpx : ℕ) (c y b1 b3 : ℚ)
    (hpar : corner / 2 = 0) (h1 : ¬ b3 < y) (h2 : b3 - y < c) :
    yresolve corner rpx c y b1 b3 = (some (b3 - c), b3 - (b3 - c), rpx) := by
  unfold yresolve; rw [if_pos hpar, if_neg h1, if_pos h2]

/-- Top-start drag moving the top edge freely. -/
lemma yresolve_top_move (corner rpx : ℕ) (c y b1 b3 : ℚ)
    (hpar : corner / 2 = 0) (h1 : ¬ b3 < y) (h2 : ¬ (b3 - y < c)) :
    yresolve corner rpx c y b1 b3 = (some y, b3 - y, rpx) := by
  unfold yresolve; rw [if_pos hpar, if_neg h1, if_neg h2]

/-- Bottom-start drag flipped past the top edge by less than a scale. -/
lemma yresolve_bottom_flip_small (corner rpx : ℕ) (c y b1 b3 : ℚ)
    (hpar : ¬ corner / 2 = 0) (h1 : y < b1) (h2 : b1 - y < c) :
    yresolve corner rpx c y b1 b3 = (some (b1 - c), b1 - (b1 - c), rpx - 2) := by
  unfold yresolve; rw [if_neg hpar, if_pos h1, if_pos h2]

/-- Bottom-start drag flipped past the top edge. -/
lemma yresolve_bottom_flip (corner rpx : ℕ) (c y b1 b3 : ℚ)
    (hpar : ¬ corner / 2 = 0) (h1 : y < b1) (h2 : ¬ (b1 - y < c)) :
    yresolve corner rpx c y b1 b3 = (some y, b1 - y, rpx - 2) := by
  unfold yresolve; rw [if_neg hpar, if_pos h1, if_neg h2]

/-- Bottom-start drag moving the bottom edge. -/
lemma yresolve_bottom_move (corner rpx : ℕ) (c y b1 b3 : ℚ)
    (hpar : ¬ corner / 2 = 0) (h1 : ¬ y < b1) :
    yresolve corner rpx c y b1 b3 = (none, y - b1, rpx) := by
  unfold yresolve; rw [if_neg hpar, if_neg h1]

/-- C5: dragging the bottom-right corner (`resizer_picked = 3`) with
the mouse at least one scale unit to the left of the patch's left edge
`oldLeft = pos0 - scale/2` (and no vertical flip) switches the active
corner to bottom-left (`2`) and commits a width of exactly
`oldLeft - mouseX`. -/
theorem C5_drag_bottomright_flips_left (s : Widget) (mx my : ℚ)
    (hpk : s.picked = true) (hrp : s.resizer_picked = some 3)
    (hscale : 0 < s.ax0.scale)
    (hflip : s.ax0.scale ≤ (s.pos0 - 1 / 2 * s.ax0.scale) - mx)
    (hwext : (s.pos0 - 1 / 2 * s.ax0.scale) - mx ≤ (s.ax0.size : ℚ) * s.ax0.scale)
    (hy : s.pos1 - 1 / 2 * s.ax1.scale ≤ my)
    (hss : s.snap_size = false) :
    (onmousemove s mx my true).1.resizer_picked = some 2 ∧
    (onmousemove s mx my true).1.size0 = (s.pos0 - 1 / 2 * s.ax0.scale) - mx := by
  have hmx : mx < s.pos0 - 1 / 2 * s.ax0.scale := by linarith
  unfold onmousemove
  rw [hrp, if_pos (show s.picked = true ∧ true = true from ⟨hpk, rfl⟩)]
  dsimp only [get_resizer_offset, get_patch_xy]
  simp only [zero_mul, add_zero]
  rw [xresolve_odd_flip 3 s.ax0.scale mx _ _ (by norm_num) hmx (not_lt.mpr hflip)]
  dsimp only
  rw [yresolve_bottom_move 3 _ s.ax1.scale my _ _ (by norm_num) (not_lt.mpr hy)]
  dsimp only
  rw [if_neg (not_lt.mpr hflip)]
  constructor
  · rw [validate_geometry_resizer_picked]
  · rw [validate_geometry_size0_eq]
    simp only [hss]
    norm_num
    linarith

/-! ## C6 -/

/-- When the mouse does not cross the opposite vertical edge, the
horizontal resolution keeps the picked corner. -/
lemma xresolve_rpx_no_cross (corner : ℕ) (c x b0 b2 : ℚ)
    (h1 : corner % 2 = 0 → ¬ b2 < x) (h2 : ¬ corner % 2 = 0 → ¬ x < b0) :
    (xresolve corner c x b0 b2).2.2 = corner := by
  unfold xresolve
  by_cases hp : corner % 2 = 0
  · rw [if_pos hp, if_neg (h1 hp)]
    split_ifs <;> rfl
  · rw [if_neg hp, if_neg (h2 hp)]

/-- When the mouse does not cross the opposite horizontal edge, the
vertical resolution passes the resizer index through. -/
lemma yresolve_rpx_no_cross (corner rpx : ℕ) (c y b1 b3 : ℚ)
    (h1 : corner / 2 = 0 → ¬ b3 < y) (h2 : ¬ corner / 2 = 0 → ¬ y < b1) :
    (yresolve corner rpx c y b1 b3).2.2 = rpx := by
  unfold yresolve
  by_cases hp : corner / 2 = 0
  · rw [if_pos hp, if_neg (h1 hp)]
    split_ifs <;> rfl
  · rw [if_neg hp, if_neg (h2 hp)]

/-- If the drag would leave less than one scale unit of width without
crossing the opposite edge, the scale-floored width is exactly one
scale unit. -/
lemma xresolve_small_width (corner : ℕ) (c x b0 b2 : ℚ)
    (h1 : corner % 2 = 0 → ¬ b2 < x ∧ b2 - x < c)
    (h2 : ¬ corner % 2 = 0 → ¬ x < b0 ∧ x - b0 < c) :
    (if (xresolve corner c x b0 b2).2.1 < c then c
     else (xresolve corner c x b0 b2).2.1) = c := by
  unfold xresolve
  by_cases hp : corner % 2 = 0
  · obtain ⟨ha, hb⟩ := h1 hp
    rw [if_pos hp, if_neg ha, if_pos hb]
    dsimp only
    split_ifs with h3
    · rfl
    · linarith
  · obtain ⟨ha, hb⟩ := h2 hp
    rw [if_neg hp, if_neg ha]
    dsimp only
    rw [if_pos hb]

/-- If the drag would leave less than one scale unit of height without
crossing the opposite edge, the scale-floored height is exactly one
scale unit. -/
lemma yresolve_small_height (corner rpx : ℕ) (c y b1 b3 : ℚ)
    (h1 : corner / 2 = 0 → ¬ b3 < y ∧ b3 - y < c)
    (h2 : ¬ corner / 2 = 0 → ¬ y < b1 ∧ y - b1 < c) :
    (if (yresolve corner rpx c y b1 b3).2.1 < c then c
     else (yresolve corner rpx c y b1 b3).2.1) = c := by
  unfold yresolve
  by_cases hp : corner / 2 = 0
  · obtain ⟨ha, hb⟩ := h1 hp
    rw [if_pos hp, if_neg ha, if_pos hb]
    dsimp only
    split_ifs with h3
    · rfl
    · linarith
  · obtain ⟨ha, hb⟩ := h2 hp
    rw [if_neg hp, if_neg ha]
    dsimp only
    rw [if_pos hb]

/-- C6, amended: for every picked corner, when the mouse stays on the
near side of the opposite edge (no crossing) and the resulting width
(resp. height) would fall below one scale unit, the committed width
(resp. height) is exactly one scale unit and the active corner is
unchanged.  (When the mouse *crosses* the opposite edge by less than
one scale unit the size is still clamped but the corner flips — see the
counterexample.) -/
theorem C6_amended_small_size_clamps_and_keeps_corner
    (s : Widget) (mx my : ℚ) (corner : ℕ)
    (hpk : s.picked = true) (hrp : s.resizer_picked = some corner)
    (hext0 : s.ax0.scale ≤ (s.ax0.size : ℚ) * s.ax0.scale)
    (hext1 : s.ax1.scale ≤ (s.ax1.size : ℚ) * s.ax1.scale)
    (hss : s.snap_size = false)
    (hxn : if corner % 2 = 0 then mx ≤ s.pos0 - 1 / 2 * s.ax0.scale + s.size0
           else s.pos0 - 1 / 2 * s.ax0.scale ≤ mx)
    (hyn : if corner / 2 = 0 then my ≤ s.pos1 - 1 / 2 * s.ax1.scale + s.size1
           else s.pos1 - 1 / 2 * s.ax1.scale ≤ my) :
    ((if corner % 2 = 0
      then (s.pos0 - 1 / 2 * s.ax0.scale + s.size0) - mx < s.ax0.scale
      else mx - (s.pos0 - 1 / 2 * s.ax0.scale) < s.ax0.scale) →
      (onmousemove s mx my true).1.size0 = s.ax0.scale ∧
      (onmousemove s mx my true).1.resizer_picked = some corner) ∧
    ((if corner / 2 = 0
      then (s.pos1 - 1 / 2 * s.ax1.scale + s.size1) - my < s.ax1.scale
      else my - (s.pos1 - 1 / 2 * s.ax1.scale) < s.ax1.scale) →
      (onmousemove s mx my true).1.size1 = s.ax1.scale ∧
      (onmousemove s mx my true).1.resizer_picked = some corner) := by
  have hX1 : corner % 2 = 0 → ¬ (s.pos0 - 1 / 2 * s.ax0.scale + s.size0 < mx) := by
    intro hp; rw [if_pos hp] at hxn; exact not_lt.mpr hxn
  have hX2 : ¬ corner % 2 = 0 → ¬ (mx < s.pos0 - 1 / 2 * s.ax0.scale) := by
    intro hp; rw [if_neg hp] at hxn; exact not_lt.mpr hxn
  have hY1 : corner / 2 = 0 → ¬ (s.pos1 - 1 / 2 * s.ax1.scale + s.size1 < my) := by
    intro hp; rw [if_pos hp] at hyn; exact not_lt.mpr hyn
  have hY2 : ¬ corner / 2 = 0 → ¬ (my < s.pos1 - 1 / 2 * s.ax1.scale) := by
    intro hp; rw [if_neg hp] at hyn; exact not_lt.mpr hyn
  constructor
  · intro hsmall
    have hA1 : corner % 2 = 0 →
        ¬ (s.pos0 - 1 / 2 * s.ax0.scale + s.size0 < mx) ∧
          (s.pos0 - 1 / 2 * s.ax0.scale + s.size0) - mx < s.ax0.scale := by
      intro hp
      refine ⟨hX1 hp, ?_⟩
      rw [if_pos hp] at hsmall
      linarith
    have hA2 : ¬ corner % 2 = 0 →
        ¬ (mx < s.pos0 - 1 / 2 * s.ax0.scale) ∧
          mx - (s.pos0 - 1 / 2 * s.ax0.scale) < s.ax0.scale := by
      intro hp
      refine ⟨hX2 hp, ?_⟩
      rw [if_neg hp] at hsmall
      linarith
    unfold onmousemove
    rw [hrp, if_pos (show s.picked = true ∧ true = true from ⟨hpk, rfl⟩)]
    dsimp only [get_resizer_offset, get_patch_xy]
    simp only [zero_mul, add_zero]
    constructor
    · rw [validate_geometry_size0_eq]
      dsimp only
      rw [hss]
      rw [if_neg (by simp : ¬ (false = true))]
      rw [xresolve_small_width corner s.ax0.scale mx _ _ hA1 hA2]
      exact min_eq_left hext0
    · rw [validate_geometry_resizer_picked]
      dsimp only
      rw [yresolve_rpx_no_cross corner _ s.ax1.scale my _ _ hY1 hY2,
        xresolve_rpx_no_cross corner s.ax0.scale mx _ _ hX1 hX2]
  · intro hsmall
    have hB1 : corner / 2 = 0 →
        ¬ (s.pos1 - 1 / 2 * s.ax1.scale + s.size1 < my) ∧
          (s.pos1 - 1 / 2 * s.ax1.scale + s.size1) - my < s.ax1.scale := by
      intro hp
      refine ⟨hY1 hp, ?_⟩
      rw [if_pos hp] at hsmall
      linarith
    have hB2 : ¬ corner / 2 = 0 →
        ¬ (my < s.pos1 - 1 / 2 * s.ax1.scale) ∧
          my - (s.pos1 - 1 / 2 * s.ax1.scale) < s.ax1.scale := by
      intro hp
      refine ⟨hY2 hp, ?_⟩
      rw [if_neg hp] at hsmall
      linarith
    unfold onmousemove
    rw [hrp, if_pos (show s.picked = true ∧ true = true from ⟨hpk, rfl⟩)]
    dsimp only [get_resizer_offset, get_patch_xy]
    simp only [zero_mul, add_zero]
    constructor
    · rw [validate_geometry_size1_eq]
      dsimp only
      rw [hss]
      rw [if_neg (by simp : ¬ (false = true))]
      rw [yresolve_small_height corner _ s.ax1.scale my _ _ hB1 hB2]
      exact min_eq_left hext1
    · rw [validate_geometry_resizer_picked]
      dsimp only
      rw [yresolve_rpx_no_cross corner _ s.ax1.scale my _ _ hY1 hY2,
        xresolve_rpx_no_cross corner s.ax0.scale mx _ _ hX1 hX2]

/-- C5, witness: on `dragW` a move to `x = 1/2` (one scale left of the
patch's left edge `3/2`) flips the corner to `2` with width
`3/2 - 1/2 = 1`. -/
theorem C5_witness :
    (onmousemove dragW (1 / 2) 5 true).1.resizer_picked = some 2 ∧
    (onmousemove dragW (1 / 2) 5 true).1.size0
      = (dragW.pos0 - 1 / 2 * dragW.ax0.scale) - 1 / 2 :=
  C5_drag_bottomright_flips_left dragW (1 / 2) 5 rfl rfl
    (by norm_num [dragW, axisA]) (by norm_num [dragW, axisA])
    (by norm_num [dragW, axisA]) (by norm_num [dragW, axisA]) rfl

/-- C6, counterexample: on `c6W` (patch left edge `9/2`), a move of the
bottom-right handle to `x = 21/5` makes the resulting width
`9/2 - 21/5 = 3/10` fall below one scale unit; the committed width is
indeed clamped to one scale unit, but the active corner *changes* from
`3` to `2` (the mouse crossed the left edge by less than one scale), so
"clamps ... and does not flip" fails as stated. -/
theorem C6_counterexample :
    ((c6W.pos0 - 1 / 2 * c6W.ax0.scale) - 21 / 5 < c6W.ax0.scale) ∧
    (onmousemove c6W (21 / 5) 6 true).1.size0 = c6W.ax0.scale ∧
    (onmousemove c6W (21 / 5) 6 true).1.resizer_picked ≠ c6W.resizer_picked := by
  refine ⟨by norm_num [c6W, axisA], ?_, ?_⟩
  · norm_num [onmousemove, xresolve, yresolve, get_patch_xy, get_resizer_offset,
      validate_geometry, validate_core, do_snap_position, do_snap_size, clampChain,
      apply_changes, min_def, max_def, c6W, axisA]
  · norm_num [onmousemove, xresolve, yresolve, get_patch_xy, get_resizer_offset,
      validate_geometry, validate_core, do_snap_position, do_snap_size, clampChain,
      apply_changes, min_def, max_def, c6W, axisA]

/-- C6, witness: on `c6W`, dragging the bottom-right handle to
`x = 23/5` (inside the rectangle, a tenth of a unit right of the left
edge) clamps the width to one scale unit and keeps corner `3`. -/
theorem C6_witness :
    (onmousemove c6W (23 / 5) 6 true).1.size0 = c6W.ax0.scale ∧
    (onmousemove c6W (23 / 5) 6 true).1.resizer_picked = some 3 :=
  (C6_amended_small_size_clamps_and_keeps_corner c6W (23 / 5) 6 3 rfl rfl
    (by norm_num [c6W, axisA]) (by norm_num [c6W, axisA]) rfl
    (by norm_num [c6W, axisA]) (by norm_num [c6W, axisA])).1
    (by norm_num [c6W, axisA])

/-! ## C8 -/

/-- C8, counterexample: two positional arguments match none of the
three accepted shapes (not one argument, not four, not a sole `bounds`
keyword), yet the parser raises nothing — it falls into the keyword
branch and returns the rectangle's current geometry.  There is no
error path in `_parse_bounds_args` at all. -/
theorem C8_counterexample :
    (([PyVal.num 1, PyVal.num 2] : List PyVal).length ≠ 1 ∧
     ([PyVal.num 1, PyVal.num 2] : List PyVal).length ≠ 4 ∧
     ¬ (KWArgs.empty.len = 1 ∧ KWArgs.empty.bounds.isSome = true)) ∧
    parse_bounds_args sampleW [PyVal.num 1, PyVal.num 2] KWArgs.empty
      = PyVal.tup4 (PyVal.num sampleW.pos0) (PyVal.num sampleW.pos1)
          (PyVal.num sampleW.size0) (PyVal.num sampleW.size1) :=
  ⟨by decide, rfl⟩

/-- C8, amended: the parser never raises; any keyword input that is not
the sole-`bounds` shape (and has no positional arguments) is resolved
by popping each dimension with a default from the current geometry —
`x`/`left` default to the current position, and width/height default to
the *current* width/height (used only when `right`/`bottom` are absent;
when present those are converted by subtracting the resolved
left/top). -/
theorem C8_amended_kwargs_defaults (s : Widget) (kw : KWArgs)
    (hnb : ¬ (kw.len = 1 ∧ kw.bounds.isSome = true)) :
    parse_bounds_args s [] kw =
      PyVal.tup4
        (PyVal.num (kw.x.getD (kw.left.getD s.pos0)))
        (PyVal.num (kw.y.getD (kw.top.getD s.pos1)))
        (PyVal.num (match kw.right with
          | some r => r - kw.x.getD (kw.left.getD s.pos0)
          | none => kw.w.getD (kw.width.getD s.size0)))
        (PyVal.num (match kw.bottom with
          | some b => b - kw.y.getD (kw.top.getD s.pos1)
          | none => kw.h.getD (kw.height.getD s.size1))) := by
  unfold parse_bounds_args
  rw [dif_neg (by simp), if_neg (by simp), if_neg hnb]

/-- C8, witness: with only `x = 7` given, every other dimension keeps
the rectangle's current value. -/
theorem C8_witness :
    parse_bounds_args sampleW [] kwX
      = PyVal.tup4 (PyVal.num 7) (PyVal.num sampleW.pos1)
          (PyVal.num sampleW.size0) (PyVal.num sampleW.size1) := by
  simpa [kwX, KWArgs.empty] using
    C8_amended_kwargs_defaults sampleW kwX (by decide)
